import Mathlib

/-!
Verification of the Extended Action Switch plugin (src/extended-action-switch/src/plugin.ts).

The development shallowly embeds the plugin:

* the configuration data model (`Command`, `ActionTree`, `SwitchSettings`) is
  translated field for field from the TypeScript type declarations;
* the action-tree interpreter `runActionTree` is embedded as a pure function
  producing the list of platform effects it performs, with a per-command
  success oracle `ok : Nat → Bool` standing for whether the awaited platform
  call of the command at that index resolves or rejects (the `try`/`catch`
  in the source catches a rejection and logs it);
* the press-classification handler (`onKeyDown` / `onKeyUp` and the
  `setTimeout` callback) is embedded as a step function `step` over the
  handler's mutable instance fields together with the set of scheduled,
  not-yet-fired, not-yet-cancelled timeouts.  Events are processed
  run-to-completion, matching the single-threaded Node.js event loop the
  plugin runs on: a `setTimeout` callback can only fire between handler
  invocations, and only while it is still scheduled.
-/

/-- The `type` field of a `Command`, from the TypeScript union
`"hotkey" | "url" | "text" | "delay" | "run"`. -/
inductive CmdType
  | hotkey
  | url
  | text
  | delay
  | run
deriving DecidableEq, Repr

/-- `type Command = { type: ..., value: string }`. -/
structure Command where
  type : CmdType
  value : String
deriving DecidableEq, Repr

/-- `type ActionTree = Command[]`. -/
abbrev ActionTree := List Command

/-- `type SwitchSettings = { tree0?, tree1?, treeHold? }`; an absent optional
field is `none`. -/
structure SwitchSettings where
  tree0 : Option ActionTree
  tree1 : Option ActionTree
  treeHold : Option ActionTree
deriving DecidableEq, Repr

/-- Observable platform effects of the plugin: the calls it makes on the
platform executor (key injection, text injection, open/launch, sleeping in a
`delay` step), the `setState` write-through to the host, and the
`console.error` log emitted by the interpreter's `catch` block. -/
inductive Effect
  | sendHotkey (keys : String)
  | typeText (text : String)
  | openTarget (target : String)
  | sleep (ms : Int)
  | setState (state : Nat)
  | logError (cmdType : CmdType)
deriving DecidableEq, Repr

/-- JavaScript `parseInt(s, 10)`: skip leading whitespace, read an optional
sign, then the longest prefix of decimal digits; `NaN` (here `none`) if that
prefix is empty. -/
def jsParseInt (s : String) : Option Int :=
  let cs := s.data.dropWhile Char.isWhitespace
  let signAndRest : Bool × List Char :=
    match cs with
    | '-' :: rest => (true, rest)
    | '+' :: rest => (false, rest)
    | _ => (false, cs)
  let ds := signAndRest.2.takeWhile Char.isDigit
  if ds.isEmpty then none
  else
    let n : Nat := ds.foldl (fun acc c => acc * 10 + (c.toNat - 48)) 0
    some (if signAndRest.1 then -(n : Int) else (n : Int))

/-- Modelled from the spec words for the `delay` step (not from the source):
"parse `value` as a non-negative integer count of milliseconds; if parse
fails (non-numeric), treat as a no-op".  The whole value must be a
non-negative decimal numeral. -/
def specParseNonNegInt (s : String) : Option Nat :=
  if !s.data.isEmpty && s.data.all Char.isDigit then
    some (s.data.foldl (fun acc c => acc * 10 + (c.toNat - 48)) 0)
  else none

/-- The platform-executor calls a single command issues, read off the
`switch (cmd.type)` dispatch in `runActionTree`: `hotkey` calls
`simulateHotkey`, `url` and `run` call `open`, `text` calls
`simulateTyping`, and `delay` sleeps for `parseInt(cmd.value, 10)`
milliseconds unless that parse is `NaN`, in which case it does nothing. -/
def cmdCalls (c : Command) : List Effect :=
  match c.type with
  | .hotkey => [.sendHotkey c.value]
  | .url => [.openTarget c.value]
  | .text => [.typeText c.value]
  | .run => [.openTarget c.value]
  | .delay =>
      match jsParseInt c.value with
      | none => []
      | some ms => [.sleep ms]

/-- Whether a command's step contains an awaited platform call that can
reject: all of them except `delay`, whose `parseInt` and `setTimeout` sleep
cannot throw. -/
def canFail (t : CmdType) : Bool :=
  match t with
  | .delay => false
  | _ => true

/-- One iteration of the interpreter loop body: the command's platform call
is attempted, and if it rejects (`ok = false`) the `catch` block logs the
failure; either way the loop continues. -/
def cmdEffects (c : Command) (ok : Bool) : List Effect :=
  cmdCalls c ++ (if canFail c.type && !ok then [.logError c.type] else [])

/-- `runActionTree`: runs the commands of a tree in list order, awaiting
each one; `ok i` tells whether the platform call of the command at index `i`
resolves.  Returns the effect trace.  The function is total: no command
failure escapes the loop. -/
def runActionTree (tree : ActionTree) (ok : Nat → Bool) : List Effect :=
  match tree with
  | [] => []
  | c :: rest => cmdEffects c (ok 0) ++ runActionTree rest (fun i => ok (i + 1))

/-- The `tree && tree.length > 0` guard both `executeHold` and
`executeToggle` apply before calling `runActionTree`: an absent or empty
tree produces no effects. -/
def optTreeEffects (tree : Option ActionTree) (ok : Nat → Bool) : List Effect :=
  match tree with
  | some t => if 0 < t.length then runActionTree t ok else []
  | none => []

/-- `executeHold`: run the hold tree of the key-down event's settings, if
present and non-empty. -/
def executeHold (settings : SwitchSettings) (ok : Nat → Bool) : List Effect :=
  optTreeEffects settings.treeHold ok

/-- `executeToggle`: with `currentState = ev.payload.state ?? 0`, run
`tree0` when `currentState === 0` and `tree1` otherwise, then write
`nextState` (1 when current is 0, else 0) to the host with `setState`. -/
def executeToggle (settings : SwitchSettings) (state : Option Nat) (ok : Nat → Bool) :
    List Effect :=
  let currentState := state.getD 0
  let nextState : Nat := if currentState = 0 then 1 else 0
  let treeToRun := if currentState = 0 then settings.tree0 else settings.tree1
  optTreeEffects treeToRun ok ++ [Effect.setState nextState]

/-- `browseFile`: the `exec` callback resolves the empty string when the
dialog command errors (user cancellation included) and the trimmed stdout
otherwise. -/
def browseFile (dialogResult : Except Unit String) : String :=
  match dialogResult with
  | .error _ => ""
  | .ok stdout => stdout.trim

/-- The payload of an inspector message, `{ event, index, tree }`; the
`index` and `tree` fields are opaque to the plugin and merely echoed back. -/
structure InspectorMsg (ι τ : Type) where
  event : String
  index : ι
  tree : τ

/-- A reply sent to the property inspector:
`{ event: "filePicked", payload: { filePath, index, tree } }`. -/
inductive PIReply (ι τ : Type)
  | filePicked (filePath : String) (index : ι) (tree : τ)
deriving DecidableEq, Repr

/-- `onSendToPlugin`: on a `"browseFile"` event, reply with `filePicked`
carrying the browse result and the request's `index` and `tree`; any other
event produces no reply. -/
def onSendToPlugin {ι τ : Type} (ev : InspectorMsg ι τ)
    (dialogResult : Except Unit String) : List (PIReply ι τ) :=
  if ev.event = "browseFile" then
    [PIReply.filePicked (browseFile dialogResult) ev.index ev.tree]
  else []

/-- A `setTimeout` registration that is still scheduled (neither fired nor
cancelled).  Its callback closes over the key-down event, so it carries that
event's control id and settings; `id` is the timeout handle. -/
structure PendingTimer where
  id : Nat
  cid : Nat
  settings : SwitchSettings
deriving DecidableEq, Repr

/-- The handler object's mutable instance fields (`pressTimer`,
`isLongPress`, `initialState` of the `ExtendedActionSwitch` singleton),
together with the runtime's set of still-scheduled timeouts and a fresh-id
counter for allocating timeout handles. -/
structure HandlerState where
  pressTimer : Option Nat
  isLongPress : Bool
  initialState : Nat
  scheduled : List PendingTimer
  nextId : Nat
deriving DecidableEq, Repr

/-- The handler's fields as initialized at construction:
`pressTimer = null`, `isLongPress = false`, `initialState = 0`, and no
timeout scheduled yet. -/
def initState : HandlerState :=
  { pressTimer := none
    isLongPress := false
    initialState := 0
    scheduled := []
    nextId := 0 }

/-- Events delivered to the handler: a key-down or key-up for some control
(carrying that event's `payload.state` and `payload.settings`), or the
firing of the scheduled timeout with handle `tid`. -/
inductive Ev
  | keyDown (cid : Nat) (state : Option Nat) (settings : SwitchSettings)
  | keyUp (cid : Nat) (state : Option Nat) (settings : SwitchSettings)
  | timerFire (tid : Nat)
deriving DecidableEq, Repr

/-- The calls a handler invocation makes: `executeHold(ev)` from the timer
callback, `executeToggle(ev)` from the short-press branch of `onKeyUp`, and
`ev.action.setState(initialState)` from the long-press branch. -/
inductive Output
  | execHold (cid : Nat) (settings : SwitchSettings)
  | execToggle (cid : Nat) (state : Option Nat) (settings : SwitchSettings)
  | setStateOut (cid : Nat) (state : Nat)
deriving DecidableEq, Repr

/-- One run-to-completion handler invocation.

`keyDown`: clear `isLongPress`, capture `initialState := state ?? 0`, and
store a fresh timeout handle in `pressTimer` — the previous value of
`pressTimer` is overwritten without `clearTimeout`, so a previously
scheduled timeout stays scheduled.

`keyUp`: if `pressTimer` is set, `clearTimeout` it (remove it from the
scheduled set) and null the field; then if `isLongPress`, write the captured
`initialState` back to the host, otherwise call `executeToggle` with the
key-up event.

`timerFire tid`: only a still-scheduled timeout can fire; firing removes it
from the scheduled set, sets `isLongPress := true`, and calls `executeHold`
with the closed-over key-down event.  (It does not null `pressTimer`; the
stale handle is cleared by the next `keyUp`.) -/
def step (s : HandlerState) : Ev → HandlerState × List Output
  | .keyDown cid state settings =>
      ({ pressTimer := some s.nextId
         isLongPress := false
         initialState := state.getD 0
         scheduled := s.scheduled ++ [⟨s.nextId, cid, settings⟩]
         nextId := s.nextId + 1 }, [])
  | .keyUp cid state settings =>
      let s1 : HandlerState :=
        match s.pressTimer with
        | some h =>
            { s with pressTimer := none
                     scheduled := s.scheduled.filter (fun t => t.id != h) }
        | none => s
      if s1.isLongPress then
        (s1, [.setStateOut cid s1.initialState])
      else
        (s1, [.execToggle cid state settings])
  | .timerFire tid =>
      match s.scheduled.find? (fun t => t.id == tid) with
      | some t =>
          ({ s with isLongPress := true
                    scheduled := s.scheduled.filter (fun p => p.id != tid) },
           [.execHold t.cid t.settings])
      | none => (s, [])

/-- Process a list of events in order, collecting the outputs. -/
def runEvents (s : HandlerState) : List Ev → HandlerState × List Output
  | [] => (s, [])
  | e :: rest =>
      let (s1, out) := step s e
      let (s2, outs) := runEvents s1 rest
      (s2, out ++ outs)

/-- Elaborate each handler-level output into the platform effects it
performs: `execHold` and `execToggle` run their trees, and the long-press
restoration is a single `setState` write. -/
def outputEffects (ok : Nat → Bool) : Output → List Effect
  | .execHold _ settings => executeHold settings ok
  | .execToggle _ state settings => executeToggle settings state ok
  | .setStateOut _ n => [.setState n]

/-- The platform-effect trace of a list of handler outputs. -/
def effectsOfOutputs (outs : List Output) (ok : Nat → Bool) : List Effect :=
  (outs.map (outputEffects ok)).flatten

/-- An output that invokes the action-tree interpreter on one of the
configured trees: the hold path's `executeHold` and the short-press path's
`executeToggle`. -/
def isTreeInvocation : Output → Bool
  | .execHold _ _ => true
  | .execToggle _ _ _ => true
  | .setStateOut _ _ => false

/-- Recognizer for the `setState` write-through effect. -/
def isSetStateEff : Effect → Bool
  | .setState _ => true
  | _ => false

/-- Recognizer for the `console.error` log effect. -/
def isLogEff : Effect → Bool
  | .logError _ => true
  | _ => false

/-- Filtering the log entries out of one loop iteration's effects leaves
exactly the command's platform calls. -/
lemma filter_not_log_cmdEffects (c : Command) (b : Bool) :
    (cmdEffects c b).filter (fun e => !isLogEff e) = cmdCalls c := by
  obtain ⟨t, v⟩ := c
  rw [cmdEffects, List.filter_append]
  have h1 : (cmdCalls ⟨t, v⟩).filter (fun e => !isLogEff e) = cmdCalls ⟨t, v⟩ := by
    cases t <;> simp [cmdCalls, isLogEff]
    cases jsParseInt v <;> simp [isLogEff]
  have h2 : ((if canFail (Command.mk t v).type && !b then [Effect.logError t] else []) :
      List Effect).filter (fun e => !isLogEff e) = [] := by
    split <;> simp [isLogEff]
  rw [h1, h2, List.append_nil]

/-- Filtering the log entries out of an interpreter run leaves the
commands' platform calls concatenated in tree order, independently of which
steps failed. -/
lemma filter_not_log_runActionTree (tree : ActionTree) (ok : Nat → Bool) :
    (runActionTree tree ok).filter (fun e => !isLogEff e) = (tree.map cmdCalls).flatten := by
  induction tree generalizing ok with
  | nil => rfl
  | cons c rest ih =>
      rw [runActionTree, List.filter_append, filter_not_log_cmdEffects, List.map_cons,
        List.flatten_cons, ih]

/-- A loop iteration never performs a `setState` write. -/
lemma countP_setState_cmdEffects (c : Command) (b : Bool) :
    (cmdEffects c b).countP isSetStateEff = 0 := by
  obtain ⟨t, v⟩ := c
  rw [cmdEffects, List.countP_append]
  have h1 : (cmdCalls ⟨t, v⟩).countP isSetStateEff = 0 := by
    cases t <;> simp [cmdCalls, isSetStateEff]
    cases jsParseInt v <;> simp [isSetStateEff]
  have h2 : ((if canFail (Command.mk t v).type && !b then [Effect.logError t] else []) :
      List Effect).countP isSetStateEff = 0 := by
    split <;> simp [isSetStateEff]
  rw [h1, h2]

/-- The interpreter never performs a `setState` write: only the classifier
does. -/
lemma countP_setState_runActionTree (tree : ActionTree) (ok : Nat → Bool) :
    (runActionTree tree ok).countP isSetStateEff = 0 := by
  induction tree generalizing ok with
  | nil => rfl
  | cons c rest ih =>
      rw [runActionTree, List.countP_append, countP_setState_cmdEffects, ih]

/-- Running an optional tree never performs a `setState` write. -/
lemma countP_setState_optTreeEffects (o : Option ActionTree) (ok : Nat → Bool) :
    (optTreeEffects o ok).countP isSetStateEff = 0 := by
  match o with
  | none => rfl
  | some t =>
      rw [optTreeEffects]
      split
      · exact countP_setState_runActionTree t ok
      · rfl

/-- C5: for every tree and every pattern of per-step failures, the
interpreter's platform calls (everything except the `catch` block's log
entries) are exactly the commands' calls concatenated in the tree's list
order; the sequence of platform calls is independent of which steps failed;
and on the concrete failing tree `[url "bad", text "X"]` whose first step
rejects, the failure is logged and the `text` step still executes.  The
interpreter is a total function, so no step failure escapes it. -/
theorem interpreter_order_and_isolation (tree : ActionTree) (ok okAlt : Nat → Bool) :
    (runActionTree tree ok).filter (fun e => !isLogEff e) = (tree.map cmdCalls).flatten
    ∧ (runActionTree tree ok).filter (fun e => !isLogEff e)
        = (runActionTree tree okAlt).filter (fun e => !isLogEff e)
    ∧ runActionTree [⟨CmdType.url, "bad"⟩, ⟨CmdType.text, "X"⟩] (fun i => i != 0)
        = [Effect.openTarget "bad", Effect.logError CmdType.url, Effect.typeText "X"] :=
  ⟨filter_not_log_runActionTree tree ok,
   by rw [filter_not_log_runActionTree, filter_not_log_runActionTree],
   rfl⟩

/-- C6 counterexample: the claim's parse ("a non-negative integer count of
milliseconds", failing on any non-numeric value) rejects `"12abc"`, so the
claim makes the step a no-op with no suspension; the code's
`parseInt("12abc", 10)` yields `12` and the step suspends for 12 ms. -/
theorem delay_parse_cex :
    specParseNonNegInt "12abc" = none
    ∧ runActionTree [⟨CmdType.delay, "12abc"⟩] (fun _ => true) = [Effect.sleep 12] := by
  constructor
  · rfl
  · rfl

/-- C6 (amended): a `delay` step parses its value with JavaScript
`parseInt(value, 10)` semantics (optional sign, then the longest leading
digit run; `NaN` only when that run is empty, so `"12abc"` parses to 12 and
`"-5"` to -5); when the parse is `NaN` (e.g. `"abc"`) the step is a no-op
that neither suspends nor throws; otherwise the step suspends for the
parsed count; in every case the tree continues with the next command. -/
theorem delay_step_uses_jsParseInt (v : String) (rest : ActionTree) (ok : Nat → Bool) :
    runActionTree (⟨CmdType.delay, v⟩ :: rest) ok
      = (match jsParseInt v with
         | none => []
         | some ms => [Effect.sleep ms]) ++ runActionTree rest (fun i => ok (i + 1))
    ∧ jsParseInt "abc" = none := by
  constructor
  · rw [runActionTree]
    cases h : jsParseInt v <;> simp [cmdEffects, cmdCalls, canFail, h]
  · rfl

/-- C8: running an empty tree is a no-op, and `executeHold` in particular
performs no effect when the hold tree is absent or empty; likewise the
shared empty/absent-tree guard returns no effects. -/
theorem empty_tree_noop (ok : Nat → Bool) (t0 t1 : Option ActionTree) :
    runActionTree [] ok = []
    ∧ executeHold ⟨t0, t1, some []⟩ ok = []
    ∧ executeHold ⟨t0, t1, none⟩ ok = []
    ∧ optTreeEffects (some []) ok = []
    ∧ optTreeEffects none ok = [] := by
  refine ⟨rfl, ?_, rfl, rfl, rfl⟩
  rfl

/-- C9: `browseFile` resolves the empty string when the dialog command
errors (user cancellation included) and the trimmed stdout — the chosen
path — otherwise; and an inspector message with event `"browseFile"` is
answered by a `filePicked` reply carrying that result together with the
request's `index` and `tree` fields. -/
theorem browse_file_reply {ι τ : Type} (idx : ι) (tr : τ) (dialog : Except Unit String)
    (stdout : String) :
    browseFile (Except.error ()) = ""
    ∧ browseFile (Except.ok stdout) = stdout.trim
    ∧ onSendToPlugin ⟨"browseFile", idx, tr⟩ dialog
        = [PIReply.filePicked (browseFile dialog) idx tr] := by
  refine ⟨rfl, rfl, ?_⟩
  rw [onSendToPlugin]
  simp

/-- C1 counterexample: with `tree0 = [text "A"]`, `tree1 = [text "B"]` and
toggle state 0 at both press-down and release, the short-press cycle
executes `tree0` (the `text "A"` call) and never touches `tree1`, while the
claim says `tree1` executes when the captured state is 0. -/
theorem short_press_tree_selection_cex :
    effectsOfOutputs
      (runEvents initState
        [Ev.keyDown 0 (some 0) ⟨some [⟨CmdType.text, "A"⟩], some [⟨CmdType.text, "B"⟩], none⟩,
         Ev.keyUp 0 (some 0) ⟨some [⟨CmdType.text, "A"⟩], some [⟨CmdType.text, "B"⟩], none⟩]).2
      (fun _ => true)
      = [Effect.typeText "A", Effect.setState 1]
    ∧ Effect.typeText "B" ∉
        effectsOfOutputs
          (runEvents initState
            [Ev.keyDown 0 (some 0) ⟨some [⟨CmdType.text, "A"⟩], some [⟨CmdType.text, "B"⟩], none⟩,
             Ev.keyUp 0 (some 0) ⟨some [⟨CmdType.text, "A"⟩], some [⟨CmdType.text, "B"⟩], none⟩]).2
          (fun _ => true) := by
  constructor
  · rfl
  · decide

/-- C1 (amended): for every short press, the tree executed is `tree0` when
the toggle state carried by the release event (equal to the state captured
at press-down when the host did not change it during the press) is 0 and
`tree1` when it is 1 — index equals state — and the toggle state is then
flipped to its complement by exactly one `setState` write to the host. -/
theorem short_press_selects_tree_indexed_by_state (settings : SwitchSettings)
    (state : Option Nat) (ok : Nat → Bool) (h : state.getD 0 ≤ 1) :
    executeToggle settings state ok
      = optTreeEffects (if state.getD 0 = 0 then settings.tree0 else settings.tree1) ok
        ++ [Effect.setState (1 - state.getD 0)]
    ∧ (executeToggle settings state ok).countP isSetStateEff = 1 := by
  constructor
  · rw [executeToggle]
    rcases Nat.le_one_iff_eq_zero_or_eq_one.mp h with h0 | h1
    · simp [h0]
    · simp [h1]
  · rw [executeToggle, List.countP_append, countP_setState_optTreeEffects]
    simp [isSetStateEff]

/-- Witness for the amended C1 theorem at toggle state 0 with
`tree0 = [text "A"]`, `tree1 = [text "B"]`. -/
theorem short_press_selects_witness :
    executeToggle ⟨some [⟨CmdType.text, "A"⟩], some [⟨CmdType.text, "B"⟩], none⟩ (some 0)
        (fun _ => true)
      = optTreeEffects
          (if (some 0 : Option Nat).getD 0 = 0 then
            (⟨some [⟨CmdType.text, "A"⟩], some [⟨CmdType.text, "B"⟩], none⟩ :
              SwitchSettings).tree0
          else
            (⟨some [⟨CmdType.text, "A"⟩], some [⟨CmdType.text, "B"⟩], none⟩ :
              SwitchSettings).tree1)
          (fun _ => true)
        ++ [Effect.setState (1 - (some 0 : Option Nat).getD 0)]
    ∧ (executeToggle ⟨some [⟨CmdType.text, "A"⟩], some [⟨CmdType.text, "B"⟩], none⟩ (some 0)
        (fun _ => true)).countP isSetStateEff = 1 :=
  short_press_selects_tree_indexed_by_state _ _ _ (by decide)

/-- C2: in a hold cycle — press-down from a state with no stale scheduled
timeout, the hold timer fires, then the release arrives — the release
writes the toggle state captured at press-down (`st0 ?? 0`) back to the
host, whatever state the host reports at release time (`st1`, covering any
out-of-band auto-toggle) and whatever the hold tree of `sets0` did. -/
theorem hold_cycle_restores_captured_state (p0 : Option Nat) (b0 : Bool)
    (i0 n cid : Nat) (st0 st1 : Option Nat) (sets0 sets1 : SwitchSettings) :
    (runEvents ⟨p0, b0, i0, [], n⟩
        [Ev.keyDown cid st0 sets0, Ev.timerFire n, Ev.keyUp cid st1 sets1]).2
      = [Output.execHold cid sets0, Output.setStateOut cid (st0.getD 0)] := by
  simp [runEvents, step]

/-- Witness for C2: the concrete hold cycle from the freshly constructed
handler restores the captured state 0 even though the release reports 1. -/
theorem hold_cycle_restores_witness :
    (runEvents ⟨none, false, 0, [], 0⟩
        [Ev.keyDown 7 (some 0) ⟨none, none, some [⟨CmdType.text, "H"⟩]⟩,
         Ev.timerFire 0, Ev.keyUp 7 (some 1) ⟨none, none, none⟩]).2
      = [Output.execHold 7 ⟨none, none, some [⟨CmdType.text, "H"⟩]⟩,
         Output.setStateOut 7 ((some 0 : Option Nat).getD 0)] :=
  hold_cycle_restores_captured_state none false 0 0 7 (some 0) (some 1)
    ⟨none, none, some [⟨CmdType.text, "H"⟩]⟩ ⟨none, none, none⟩

/-- C3: per press cycle exactly one path runs a tree.  A short cycle
(press-down then release) makes exactly one interpreter invocation
(`executeToggle`); a hold cycle (press-down, timer fires, release) also
makes exactly one (`executeHold`); and after a short cycle the press's
timer can no longer fire — the release removed it from the scheduled set
within the same run-to-completion handler invocation, before `isLongPress`
was examined — so no interleaving runs both the short-press tree and the
hold tree. -/
theorem exactly_one_tree_invocation_per_press (p0 : Option Nat) (b0 : Bool)
    (i0 n cid : Nat) (st0 st1 : Option Nat) (sets0 sets1 : SwitchSettings) :
    ((runEvents ⟨p0, b0, i0, [], n⟩
        [Ev.keyDown cid st0 sets0, Ev.keyUp cid st1 sets1]).2.countP isTreeInvocation = 1)
    ∧ ((runEvents ⟨p0, b0, i0, [], n⟩
        [Ev.keyDown cid st0 sets0, Ev.timerFire n, Ev.keyUp cid st1 sets1]).2.countP
          isTreeInvocation = 1)
    ∧ (step (runEvents ⟨p0, b0, i0, [], n⟩
        [Ev.keyDown cid st0 sets0, Ev.keyUp cid st1 sets1]).1 (Ev.timerFire n)).2 = [] := by
  refine ⟨?_, ?_, ?_⟩ <;> simp [runEvents, step, isTreeInvocation]

/-- Witness for C3 at a concrete short cycle and a concrete hold cycle. -/
theorem exactly_one_tree_invocation_witness :
    ((runEvents ⟨none, false, 0, [], 0⟩
        [Ev.keyDown 3 (some 1) ⟨none, none, none⟩,
         Ev.keyUp 3 (some 1) ⟨none, none, none⟩]).2.countP isTreeInvocation = 1)
    ∧ ((runEvents ⟨none, false, 0, [], 0⟩
        [Ev.keyDown 3 (some 1) ⟨none, none, none⟩, Ev.timerFire 0,
         Ev.keyUp 3 (some 1) ⟨none, none, none⟩]).2.countP isTreeInvocation = 1)
    ∧ (step (runEvents ⟨none, false, 0, [], 0⟩
        [Ev.keyDown 3 (some 1) ⟨none, none, none⟩,
         Ev.keyUp 3 (some 1) ⟨none, none, none⟩]).1 (Ev.timerFire 0)).2 = [] :=
  exactly_one_tree_invocation_per_press none false 0 0 3 (some 1) (some 1)
    ⟨none, none, none⟩ ⟨none, none, none⟩

/-- C4 counterexample: two consecutive press-downs leave two scheduled
timeouts for the handler — the first press's timer is never cancelled when
the second press overwrites `pressTimer` — contradicting the claim that at
most one hold timer is outstanding. -/
theorem overlapping_press_two_timers_cex :
    ((runEvents initState
        [Ev.keyDown 0 (some 0) ⟨none, none, none⟩,
         Ev.keyDown 0 (some 0) ⟨none, none, none⟩]).1.scheduled).length = 2 := rfl

/-- C4 (amended): a press-down arriving while a hold timer is pending
deterministically replaces the stored handle (`pressTimer`) with the new
timer's handle, but performs no `clearTimeout`: every previously scheduled
timeout stays scheduled and the scheduled set grows by one, so two timers
can be pending at once. -/
theorem keydown_replaces_handle_without_cancelling (s : HandlerState) (cid : Nat)
    (st : Option Nat) (sets : SwitchSettings) :
    (step s (Ev.keyDown cid st sets)).1.pressTimer = some s.nextId
    ∧ ((step s (Ev.keyDown cid st sets)).1.scheduled).length = s.scheduled.length + 1
    ∧ ∀ t ∈ s.scheduled, t ∈ (step s (Ev.keyDown cid st sets)).1.scheduled := by
  refine ⟨rfl, by simp [step], ?_⟩
  intro t ht
  simp [step]
  exact Or.inl ht

/-- Witness for the amended C4 theorem: a press-down on a handler that
already has timer 5 pending keeps timer 5 scheduled while storing the new
handle 6. -/
theorem keydown_replaces_handle_witness :
    (step ⟨some 5, false, 3, [⟨5, 1, ⟨none, none, none⟩⟩], 6⟩
        (Ev.keyDown 2 (some 1) ⟨none, none, none⟩)).1.pressTimer = some 6
    ∧ ((step ⟨some 5, false, 3, [⟨5, 1, ⟨none, none, none⟩⟩], 6⟩
        (Ev.keyDown 2 (some 1) ⟨none, none, none⟩)).1.scheduled).length
        = ([⟨5, 1, ⟨none, none, none⟩⟩] : List PendingTimer).length + 1
    ∧ ∀ t ∈ ([⟨5, 1, ⟨none, none, none⟩⟩] : List PendingTimer),
        t ∈ (step ⟨some 5, false, 3, [⟨5, 1, ⟨none, none, none⟩⟩], 6⟩
          (Ev.keyDown 2 (some 1) ⟨none, none, none⟩)).1.scheduled :=
  keydown_replaces_handle_without_cancelling
    ⟨some 5, false, 3, [⟨5, 1, ⟨none, none, none⟩⟩], 6⟩ 2 (some 1) ⟨none, none, none⟩

/-- C7: no action-execution failure aborts the classifier's state write.
For every failure pattern `ok`, the final effect of `executeToggle` is
still the toggle-flip `setState` write, and the effect trace of a full hold
cycle is the hold tree's effects followed by the restoration `setState`
write of the captured state. -/
theorem failing_commands_never_abort_state_writes (settings : SwitchSettings)
    (state : Option Nat) (ok : Nat → Bool) (p0 : Option Nat) (b0 : Bool)
    (i0 n cid : Nat) (st0 st1 : Option Nat) (sets1 : SwitchSettings) :
    (executeToggle settings state ok).getLast?
        = some (Effect.setState (if state.getD 0 = 0 then 1 else 0))
    ∧ effectsOfOutputs
        (runEvents ⟨p0, b0, i0, [], n⟩
          [Ev.keyDown cid st0 settings, Ev.timerFire n, Ev.keyUp cid st1 sets1]).2 ok
        = executeHold settings ok ++ [Effect.setState (st0.getD 0)] := by
  constructor
  · rw [executeToggle]
    simp
  · simp [runEvents, step, effectsOfOutputs, outputEffects]

/-- Witness for C7: with every platform call failing, the toggle flip and
the hold-cycle restoration still occur. -/
theorem failing_commands_witness :
    (executeToggle ⟨some [⟨CmdType.url, "u"⟩], none, some [⟨CmdType.text, "T"⟩]⟩ (some 0)
        (fun _ => false)).getLast?
        = some (Effect.setState (if (some 0 : Option Nat).getD 0 = 0 then 1 else 0))
    ∧ effectsOfOutputs
        (runEvents ⟨none, false, 0, [], 0⟩
          [Ev.keyDown 4 (some 1) ⟨some [⟨CmdType.url, "u"⟩], none, some [⟨CmdType.text, "T"⟩]⟩,
           Ev.timerFire 0, Ev.keyUp 4 (some 0) ⟨none, none, none⟩]).2 (fun _ => false)
        = executeHold ⟨some [⟨CmdType.url, "u"⟩], none, some [⟨CmdType.text, "T"⟩]⟩
            (fun _ => false)
          ++ [Effect.setState ((some 1 : Option Nat).getD 0)] :=
  failing_commands_never_abort_state_writes
    ⟨some [⟨CmdType.url, "u"⟩], none, some [⟨CmdType.text, "T"⟩]⟩ (some 0) (fun _ => false)
    none false 0 0 4 (some 1) (some 0) ⟨none, none, none⟩

/-- C10: the handler's `pressTimer`, `isLongPress` and `initialState`
fields are shared across all controls it serves.  From a fresh handler, a
press-down on control `cidB` while control `cidA` has a press in flight
overwrites the captured state with `cidB`'s and replaces the stored handle
with `cidB`'s timer while `cidA`'s timer stays scheduled; a subsequent
release on `cidA` then nulls the field and cancels the stored timer — the
one started by `cidB` — leaving `cidA`'s own timer pending. -/
theorem singleton_state_shared_across_controls (cidA cidB : Nat)
    (stA stB upSt : Option Nat) (setsA setsB upSets : SwitchSettings) :
    ((runEvents initState
        [Ev.keyDown cidA stA setsA, Ev.keyDown cidB stB setsB]).1.initialState = stB.getD 0)
    ∧ (runEvents initState
        [Ev.keyDown cidA stA setsA, Ev.keyDown cidB stB setsB]).1.pressTimer = some 1
    ∧ ((runEvents initState
        [Ev.keyDown cidA stA setsA, Ev.keyDown cidB stB setsB]).1.scheduled).map
          PendingTimer.cid = [cidA, cidB]
    ∧ (step (runEvents initState
        [Ev.keyDown cidA stA setsA, Ev.keyDown cidB stB setsB]).1
          (Ev.keyUp cidA upSt upSets)).1.pressTimer = none
    ∧ ((step (runEvents initState
        [Ev.keyDown cidA stA setsA, Ev.keyDown cidB stB setsB]).1
          (Ev.keyUp cidA upSt upSets)).1.scheduled).map PendingTimer.cid = [cidA] := by
  refine ⟨rfl, rfl, rfl, ?_, ?_⟩ <;> simp [runEvents, step, initState]
